import Mathlib

/-!
Shallow embedding of the access-control core of the FILE-STORE bot
(src/bot.py, src/database.py, src/utils.py, src/config.py).

Timestamps are modelled as integer seconds on one clock.  Randomly
generated identifiers (secrets.token_hex) are supplied as explicit
arguments.  SQLite tables are modelled as Lean lists of rows; an SQL
UPDATE is a map over the rows, a filtered SELECT is a find?/filter.
ISO-8601 timestamp strings compare exactly like the instants they
denote, so the string comparisons in the SQL become integer
comparisons.  External collaborators (the messaging transport, the URL
shortener, per-channel membership verdicts) enter as explicit inputs.
-/

namespace FileStore

/-- Python semantics of the seconds attribute of a timedelta between two
integer-second instants: for a normalised timedelta the seconds component
is the total length mod 86400 (floor mod, matching Int.emod for the
positive modulus).  bot.py check_rate_limit compares this attribute,
not total_seconds. -/
def tdSeconds (now r : Int) : Int := (now - r).emod 86400

/-- Message from bot.py check_rate_limit, general limit branch. -/
def rateLimitMsg : String := "Rate limit exceeded. Please wait 1 minute."

/-- Message from bot.py check_rate_limit, verification sub-limit branch. -/
def verificationLimitMsg : String := "Too many verification attempts. Wait 30 seconds."

/-- bot.py check_rate_limit, the list-comprehension cleanup of
self.user_requests for one user: keep instants whose timedelta seconds
component is below 60. -/
def cleanRequests (now : Int) (reqs : List Int) : List Int :=
  reqs.filter (fun r => decide (tdSeconds now r < 60))

/-- bot.py TelegramBot.check_rate_limit for a single user.  The state is
the list self.user_requests of that user (one shared list per user, with
no action class recorded).  Returns ((permitted, message), new list).
A denied call does not append the current instant. -/
def check_rate_limit (now : Int) (action : String) (reqs : List Int) :
    (Bool × String) × List Int :=
  let cleaned := cleanRequests now reqs
  if 20 ≤ cleaned.length then
    ((false, rateLimitMsg), cleaned)
  else if action = "verification" ∧
      3 ≤ (cleaned.filter (fun r => decide (tdSeconds now r < 30))).length then
    ((false, verificationLimitMsg), cleaned)
  else
    ((true, ""), cleaned ++ [now])

/-- Row of the sessions table (database.py init_db). -/
structure SessionRow where
  sessionId : Nat
  userId : Int
  startTime : Int
  expiryTime : Int
  isActive : Bool
deriving DecidableEq

/-- database.py Database.create_session: deactivate every session of the
user, then insert the fresh row with expiry = now + duration and the
is_active default 1.  The generated session_id is the sid argument. -/
def create_session (sid : Nat) (uid : Int) (durationSeconds : Int) (now : Int)
    (tbl : List SessionRow) : List SessionRow :=
  (tbl.map (fun r => if r.userId = uid then { r with isActive := false } else r)) ++
    [{ sessionId := sid, userId := uid, startTime := now,
       expiryTime := now + durationSeconds, isActive := true }]

/-- database.py Database.get_active_session: the first row of the user
with is_active = 1 and expiry_time > now. -/
def get_active_session (uid : Int) (now : Int) (tbl : List SessionRow) :
    Option SessionRow :=
  tbl.find? (fun r => decide (r.userId = uid ∧ r.isActive = true ∧ now < r.expiryTime))

/-- Row of the verification_tokens table (database.py init_db). -/
structure TokenRow where
  token : String
  userId : Int
  createdAt : Int
  isUsed : Bool
  isBypassed : Bool
  callbackTime : Option Int
deriving DecidableEq

/-- Row of the bypass_logs table (database.py init_db). -/
structure BypassLog where
  userId : Int
  token : String
  timeDiff : Int
deriving DecidableEq

/-- database.py Database.create_verification_token: insert a fresh row,
is_used and is_bypassed defaulting to 0.  The generated token string is
the t argument. -/
def create_verification_token (t : String) (uid : Int) (now : Int)
    (tbl : List TokenRow) : List TokenRow :=
  tbl ++ [{ token := t, userId := uid, createdAt := now, isUsed := false,
            isBypassed := false, callbackTime := none }]

/-- The SELECT inside database.py Database.verify_token: the row with
this token, this user and is_used = 0. -/
def tokenLookup (t : String) (uid : Int) (tbl : List TokenRow) : Option TokenRow :=
  tbl.find? (fun r => decide (r.token = t ∧ r.userId = uid ∧ r.isUsed = false))

/-- database.py Database.get_user_by_token: owner of an unused token. -/
def get_user_by_token (t : String) (tbl : List TokenRow) : Option Int :=
  (tbl.find? (fun r => decide (r.token = t ∧ r.isUsed = false))).map (fun r => r.userId)

/-- Row of the force_join_channels table (database.py init_db). -/
structure ForceJoinChannel where
  channelId : Int
  title : String
  inviteLink : String
  isActive : Bool
  required : Bool
deriving DecidableEq

/-- database.py Database.get_force_join_channels with the default
active_only = True: the rows with is_active = 1.  The ORDER BY added_at
clause only permutes rows and is not modelled; the gate aggregates the
results with a conjunction, which is order-insensitive. -/
def get_force_join_channels (tbl : List ForceJoinChannel) : List ForceJoinChannel :=
  tbl.filter (fun c => c.isActive)

/-- database.py Database.update_force_join_channel: set is_active and/or
required on one channel row; a none argument leaves the column alone. -/
def update_force_join_channel (cid : Int) (isActiveArg : Option Bool)
    (requiredArg : Option Bool) (tbl : List ForceJoinChannel) :
    List ForceJoinChannel :=
  tbl.map (fun c =>
    if c.channelId = cid then
      { c with isActive := isActiveArg.getD c.isActive,
               required := requiredArg.getD c.required }
    else c)

/-- Row of the links table (database.py init_db); only the columns the
access pipeline reads. -/
structure LinkRow where
  linkId : String
  channelId : Int
  linkType : String
  uses : Nat
deriving DecidableEq

/-- database.py Database.increment_link_uses. -/
def increment_link_uses (l : String) (tbl : List LinkRow) : List LinkRow :=
  tbl.map (fun r => if r.linkId = l then { r with uses := r.uses + 1 } else r)

/-- The persistent store of database.py, restricted to the tables the
access-control pipeline touches.  bypassThreshold is the parsed value of
the bypass_threshold setting, float(get_setting("bypass_threshold", "35")),
default 35. -/
structure BotDB where
  sessions : List SessionRow
  tokens : List TokenRow
  bypassLogs : List BypassLog
  bypassThreshold : Int
  links : List LinkRow
  forceJoin : List ForceJoinChannel
  analytics : List (String × Int)
deriving DecidableEq

/-- database.py Database.verify_token.  Returns the Python triple
(is_valid, is_bypassed, time_diff) and the updated store.  A miss of the
SELECT (absent token, foreign user, or already used) returns
(False, False, 0) and leaves the store alone.  On a hit, time_diff is
callback_time minus created_at, is_bypassed compares it with the
threshold, the UPDATE marks every row of this token used, and a bypass
log row is appended when bypassed. -/
def verify_token (t : String) (uid : Int) (callbackTime : Int) (db : BotDB) :
    (Bool × Bool × Int) × BotDB :=
  match tokenLookup t uid db.tokens with
  | none => ((false, false, 0), db)
  | some row =>
      let timeDiff := callbackTime - row.createdAt
      let isBypassed := decide (timeDiff < db.bypassThreshold)
      let tokens2 := db.tokens.map (fun r =>
        if r.token = t then
          { r with isUsed := true, isBypassed := isBypassed,
                   callbackTime := some callbackTime }
        else r)
      let logs2 :=
        if isBypassed then
          db.bypassLogs ++ [{ userId := uid, token := t, timeDiff := timeDiff }]
        else db.bypassLogs
      ((true, isBypassed, timeDiff),
       { db with tokens := tokens2, bypassLogs := logs2 })

/-- Running a list of verify_token calls (token, user, time) in order
and counting, among the calls on token t, those that return valid. -/
def validCount (t : String) : List (String × Int × Int) → BotDB → Nat
  | [], _ => 0
  | c :: rest, db =>
      (if c.1 = t ∧ (verify_token c.1 c.2.1 c.2.2 db).1.1 = true then 1 else 0) +
        validCount t rest (verify_token c.1 c.2.1 c.2.2 db).2

/-- Every row of token t in the store is marked used. -/
def tokenUsedUp (t : String) (db : BotDB) : Prop :=
  ∀ r ∈ db.tokens, r.token = t → r.isUsed = true

/-- Allowed chat-member statuses in MembershipChecker.check_membership
(bot.py line 46 and utils.py line 148). -/
def allowedStatuses : List String := ["member", "administrator", "creator"]

/-- MembershipChecker.check_membership (bot.py and utils.py).  The whole
body sits in a try block: the chat-id resolution and the get_chat_member
call either raise (modelled as Except.error, mapped to False by the
except clause) or produce a status string, and the user is a member iff
that status is member, administrator or creator. -/
def check_membership (lookup : Except String String) : Bool :=
  match lookup with
  | Except.error _ => false
  | Except.ok status => decide (status ∈ allowedStatuses)

/-- context.user_data entries the pipeline reads and writes
(pending_link, is_batch, verification_token). -/
structure UserData where
  pendingLink : Option String
  isBatch : Bool
  verificationToken : Option String
deriving DecidableEq

/-- Per-user view of the bot state: the rate window
self.user_requests of the user, the user_data of the user, and the
shared persistent store. -/
structure BotState where
  reqs : List Int
  userData : UserData
  db : BotDB
deriving DecidableEq

/-- Inputs a handler run consumes from outside: the clock, the freshly
generated random token and session id, the shortener result (None on
failure) and the per-channel membership verdict of the user (outcome of
check_membership for each channel). -/
structure Env where
  now : Int
  freshToken : String
  freshSessionId : Nat
  shortUrl : Option String
  member : Int → Bool

/-- Observable actions of a handler run, in order. -/
inductive Ev where
  | msg (text : String)
  | logged (eventType : String)
  | gateChecked
  | joinPromptShown
  | tokenCreated (t : String)
  | verifyPromptShown
  | shortenerFailedAlert
  | singleSent (l : String)
  | batchSent (l : String)
  | sessionMade (sid : Nat)
  | pyError (text : String)
deriving DecidableEq

/-- Message of bot.py handle_shortener_failure. -/
def shortenerFailMsg : String := "Verification temporarily unavailable"

/-- Message of bot.py handle_single_link when the link row is absent. -/
def invalidLinkMsg : String := "Invalid or expired link."

/-- Message of bot.py handle_batch_link when the link row is absent. -/
def invalidBatchMsg : String := "Invalid or expired batch link."

/-- Message of bot.py verification_callback with no pending state. -/
def sessionExpiredMsg : String := "Session expired. Please try the link again."

/-- Message of bot.py verification_callback on an invalid redemption. -/
def invalidVerificationMsg : String := "Invalid verification. Please try again."

/-- First line of the bypass message of bot.py verification_callback. -/
def bypassMsg : String := "Verification Failed: too fast, bypass suspected"

/-- Success message of both redemption handlers. -/
def verifySuccessMsg : String := "Verification Successful"

/-- Message of bot.py handle_verification_webhook on a foreign or
unknown token. -/
def invalidTokenMsg : String := "Invalid or expired token."

/-- Message of bot.py handle_verification_webhook on a bypass. -/
def tooFastMsg : String := "Verification too fast! Bypass detected."

/-- The Python runtime error raised when a 3-tuple is unpacked into two
names. -/
def valueErrorMsg : String := "ValueError: too many values to unpack"

/-- config.SESSION_DURATION = 6 * 60 * 60 seconds. -/
def sessionDuration : Int := 21600

/-- Values a Python tuple position can hold here. -/
inductive PyVal where
  | pyBool (b : Bool)
  | pyInt (n : Int)
deriving DecidableEq

/-- The tuple database.verify_token returns, as the Python caller sees
it: a length-3 sequence. -/
def pyTuple3 (r : Bool × Bool × Int) : List PyVal :=
  [PyVal.pyBool r.1, PyVal.pyBool r.2.1, PyVal.pyInt r.2.2]

/-- Python target-list assignment a, b = t: succeeds exactly when the
right-hand sequence has length two, otherwise raises ValueError. -/
def unpack2 (vals : List PyVal) : Option (PyVal × PyVal) :=
  match vals with
  | [a, b] => some (a, b)
  | _ => none

/-- bot.py TelegramBot.start_verification: verification-class rate
check, token creation, shortener call, then the prompt with the pending
state recorded. -/
def start_verification (uid : Int) (linkId : String) (isBatch : Bool)
    (env : Env) (s : BotState) : List Ev × BotState :=
  let rl := check_rate_limit env.now "verification" s.reqs
  let s1 : BotState := { s with reqs := rl.2 }
  if rl.1.1 = false then
    ([Ev.msg rl.1.2], s1)
  else
    let s2 : BotState := { s1 with db := { s1.db with
      tokens := create_verification_token env.freshToken uid env.now s1.db.tokens } }
    match env.shortUrl with
    | none =>
        ([Ev.tokenCreated env.freshToken, Ev.msg shortenerFailMsg,
          Ev.shortenerFailedAlert], s2)
    | some _ =>
        ([Ev.tokenCreated env.freshToken, Ev.verifyPromptShown],
         { s2 with userData :=
            { pendingLink := some linkId, isBatch := isBatch,
              verificationToken := some env.freshToken } })

/-- bot.py TelegramBot.check_force_join: with no active force-join
channel, go straight to verification; otherwise query membership for
every channel and either proceed (all joined) or show the join prompt
and record the pending request. -/
def check_force_join (uid : Int) (linkId : String) (isBatch : Bool)
    (env : Env) (s : BotState) : List Ev × BotState :=
  let channels := get_force_join_channels s.db.forceJoin
  if channels.isEmpty then
    start_verification uid linkId isBatch env s
  else
    let results := channels.map (fun c => (c, env.member c.channelId))
    if results.all (fun p => p.2) then
      let r := start_verification uid linkId isBatch env s
      (Ev.gateChecked :: r.1, r.2)
    else
      ([Ev.gateChecked, Ev.joinPromptShown],
       { s with userData := { s.userData with
           pendingLink := some linkId, isBatch := isBatch } })

/-- bot.py TelegramBot.handle_single_link: link_access rate check first,
then the analytics log, then the active-session fast path (deliver and
count a use), else the membership gate. -/
def handle_single_link (uid : Int) (linkId : String) (env : Env) (s : BotState) :
    List Ev × BotState :=
  let rl := check_rate_limit env.now "link_access" s.reqs
  let s1 : BotState := { s with reqs := rl.2 }
  if rl.1.1 = false then
    ([Ev.msg rl.1.2], s1)
  else
    let s2 : BotState := { s1 with db := { s1.db with
      analytics := s1.db.analytics ++ [("link_access", uid)] } }
    match get_active_session uid env.now s2.db.sessions with
    | some _ =>
        match s2.db.links.find? (fun l => decide (l.linkId = linkId)) with
        | none => ([Ev.logged "link_access", Ev.msg invalidLinkMsg], s2)
        | some _ =>
            ([Ev.logged "link_access", Ev.singleSent linkId],
             { s2 with db := { s2.db with
                 links := increment_link_uses linkId s2.db.links } })
    | none =>
        let r := check_force_join uid linkId false env s2
        (Ev.logged "link_access" :: r.1, r.2)

/-- bot.py TelegramBot.handle_batch_link: no rate check in the source;
the analytics log, then the active-session fast path, else the
membership gate. -/
def handle_batch_link (uid : Int) (batchId : String) (env : Env) (s : BotState) :
    List Ev × BotState :=
  let s1 : BotState := { s with db := { s.db with
    analytics := s.db.analytics ++ [("batch_access", uid)] } }
  match get_active_session uid env.now s1.db.sessions with
  | some _ =>
      match s1.db.links.find? (fun l => decide (l.linkId = batchId)) with
      | none => ([Ev.logged "batch_access", Ev.msg invalidBatchMsg], s1)
      | some _ =>
          ([Ev.logged "batch_access", Ev.batchSent batchId],
           { s1 with db := { s1.db with
               links := increment_link_uses batchId s1.db.links } })
  | none =>
      let r := check_force_join uid batchId true env s1
      (Ev.logged "batch_access" :: r.1, r.2)

/-- bot.py TelegramBot.verification_callback.  With no pending token or
link, report the session expired.  Otherwise call database.verify_token
(whose own commit happens inside the call) and then perform the Python
statement is_valid, is_bypassed = result, which unpacks a 3-tuple into
two names and therefore raises ValueError; the branches after the
assignment are translated below it but are unreachable. -/
def verification_callback (uid : Int) (env : Env) (s : BotState) :
    List Ev × BotState :=
  match s.userData.verificationToken, s.userData.pendingLink with
  | none, _ => ([Ev.msg sessionExpiredMsg], s)
  | some _, none => ([Ev.msg sessionExpiredMsg], s)
  | some token, some linkId =>
      let vr := verify_token token uid env.now s.db
      let s1 : BotState := { s with db := vr.2 }
      match unpack2 (pyTuple3 vr.1) with
      | none => ([Ev.pyError valueErrorMsg], s1)
      | some (PyVal.pyBool isValid, PyVal.pyBool isBypassed) =>
          if isValid = false then
            ([Ev.msg invalidVerificationMsg], s1)
          else if isBypassed then
            let s2 : BotState := { s1 with
              db := { s1.db with tokens :=
                create_verification_token env.freshToken uid env.now s1.db.tokens },
              userData := { s1.userData with
                verificationToken := some env.freshToken } }
            ([Ev.msg bypassMsg, Ev.tokenCreated env.freshToken], s2)
          else
            let s2 : BotState := { s1 with db := { s1.db with
              sessions := create_session env.freshSessionId uid sessionDuration
                env.now s1.db.sessions } }
            let deliver : List Ev × BotState :=
              match s2.db.links.find? (fun l => decide (l.linkId = linkId)) with
              | none => ([], s2)
              | some _ =>
                  ([if s2.userData.isBatch then Ev.batchSent linkId
                    else Ev.singleSent linkId],
                   { s2 with db := { s2.db with
                       links := increment_link_uses linkId s2.db.links } })
            (Ev.sessionMade env.freshSessionId :: Ev.msg verifySuccessMsg ::
              deliver.1 ++ [Ev.logged "verification_success"], deliver.2)
      | some _ => ([Ev.pyError valueErrorMsg], s1)

/-- bot.py TelegramBot.handle_verification_webhook.  Rejects a token
that is unknown, used, or owned by another user; otherwise calls
database.verify_token and performs the same two-name unpacking of its
3-tuple, raising ValueError; the branches after it are unreachable. -/
def handle_verification_webhook (uid : Int) (token : String) (env : Env)
    (s : BotState) : List Ev × BotState :=
  match get_user_by_token token s.db.tokens with
  | none => ([Ev.msg invalidTokenMsg], s)
  | some ownerId =>
      if uid ≠ ownerId then ([Ev.msg invalidTokenMsg], s)
      else
        let vr := verify_token token uid env.now s.db
        let s1 : BotState := { s with db := vr.2 }
        match unpack2 (pyTuple3 vr.1) with
        | none => ([Ev.pyError valueErrorMsg], s1)
        | some (PyVal.pyBool isValid, PyVal.pyBool isBypassed) =>
            if isValid = false then ([Ev.msg invalidVerificationMsg], s1)
            else if isBypassed then ([Ev.msg tooFastMsg], s1)
            else
              let s2 : BotState := { s1 with db := { s1.db with
                sessions := create_session env.freshSessionId uid sessionDuration
                  env.now s1.db.sessions } }
              ([Ev.sessionMade env.freshSessionId, Ev.msg verifySuccessMsg,
                Ev.logged "web_verification_success"], s2)
        | some _ => ([Ev.pyError valueErrorMsg], s1)

/-- The run emits no membership-gate invocation and no token issuance. -/
def noGateNoToken (evs : List Ev) : Prop :=
  Ev.gateChecked ∉ evs ∧ ∀ t, Ev.tokenCreated t ∉ evs

/-- C1.  Session exclusivity: whatever the prior contents of the
sessions table, after create_session the active rows of the user are
exactly the one just inserted, whose expiry is now + duration. -/
theorem create_session_exclusive (sid : Nat) (uid : Int) (d now : Int)
    (tbl : List SessionRow) :
    (create_session sid uid d now tbl).filter
        (fun r => decide (r.userId = uid ∧ r.isActive = true)) =
      [{ sessionId := sid, userId := uid, startTime := now,
         expiryTime := now + d, isActive := true }] := by
  unfold create_session
  rw [List.filter_append]
  have h : (tbl.map
        (fun r => if r.userId = uid then { r with isActive := false } else r)).filter
      (fun r => decide (r.userId = uid ∧ r.isActive = true)) = [] := by
    rw [List.filter_eq_nil_iff]
    intro r hr
    rcases List.mem_map.mp hr with ⟨a, _, rfl⟩
    by_cases ha : a.userId = uid <;> simp [ha]
  rw [h]
  simp

lemma tokenLookup_mem (t : String) (uid : Int) (tbl : List TokenRow)
    (row : TokenRow) (h : tokenLookup t uid tbl = some row) :
    row ∈ tbl ∧ row.token = t ∧ row.userId = uid ∧ row.isUsed = false := by
  unfold tokenLookup at h
  refine ⟨List.mem_of_find?_eq_some h, ?_⟩
  have hp := List.find?_some h
  simpa using hp

lemma verify_invalid_of_usedUp (t : String) (uid tm : Int) (db : BotDB)
    (h : tokenUsedUp t db) : (verify_token t uid tm db).1.1 = false := by
  unfold verify_token
  cases hfind : tokenLookup t uid db.tokens with
  | none => rfl
  | some row =>
      rcases tokenLookup_mem t uid db.tokens row hfind with ⟨hm, ht, _, hu⟩
      have hused := h row hm ht
      rw [hused] at hu
      exact absurd hu (by simp)

lemma usedUp_preserved (t t2 : String) (uid tm : Int) (db : BotDB)
    (h : tokenUsedUp t db) : tokenUsedUp t (verify_token t2 uid tm db).2 := by
  unfold verify_token
  cases hfind : tokenLookup t2 uid db.tokens with
  | none => simpa using h
  | some row =>
      dsimp only
      intro r hr ht
      rcases List.mem_map.mp hr with ⟨r0, hr0, rfl⟩
      by_cases h2 : r0.token = t2
      · simp [h2]
      · simp only [if_neg h2] at ht ⊢
        exact h r0 hr0 ht

lemma usedUp_after_valid (t : String) (uid tm : Int) (db : BotDB)
    (h : (verify_token t uid tm db).1.1 = true) :
    tokenUsedUp t (verify_token t uid tm db).2 := by
  unfold verify_token at h ⊢
  cases hfind : tokenLookup t uid db.tokens with
  | none => rw [hfind] at h; exact absurd h (by simp)
  | some row =>
      dsimp only
      intro r hr ht
      rcases List.mem_map.mp hr with ⟨r0, hr0, rfl⟩
      by_cases h2 : r0.token = t
      · simp [h2]
      · simp only [if_neg h2] at ht
        exact absurd ht h2

lemma validCount_zero_of_usedUp (t : String) (calls : List (String × Int × Int))
    (db : BotDB) (h : tokenUsedUp t db) : validCount t calls db = 0 := by
  induction calls generalizing db with
  | nil => rfl
  | cons c rest ih =>
      unfold validCount
      have hpres := usedUp_preserved t c.1 c.2.1 c.2.2 db h
      rw [ih _ hpres]
      by_cases hc : c.1 = t
      · subst hc
        have hinv := verify_invalid_of_usedUp c.1 c.2.1 c.2.2 db h
        simp [hinv]
      · simp [hc]

lemma validCount_le_one (t : String) (calls : List (String × Int × Int))
    (db : BotDB) : validCount t calls db ≤ 1 := by
  induction calls generalizing db with
  | nil => exact Nat.zero_le 1
  | cons c rest ih =>
      unfold validCount
      by_cases hc : c.1 = t ∧ (verify_token c.1 c.2.1 c.2.2 db).1.1 = true
      · rw [if_pos hc]
        have h0 : validCount t rest (verify_token c.1 c.2.1 c.2.2 db).2 = 0 := by
          apply validCount_zero_of_usedUp
          rcases hc with ⟨h1, h2⟩
          subst h1
          exact usedUp_after_valid _ _ _ _ h2
        omega
      · rw [if_neg hc]
        simpa using ih (verify_token c.1 c.2.1 c.2.2 db).2

lemma verify_invalid_of_none (t : String) (uid tm : Int) (db : BotDB)
    (h : tokenLookup t uid db.tokens = none) :
    (verify_token t uid tm db).1.1 = false := by
  unfold verify_token
  rw [h]

/-- C2.  Token single-use: over any sequence of redemption calls the
token t is reported valid at most once; after a successful redemption
every later call on t is invalid; and a call is invalid whenever the
token does not exist, belongs to a different user, or is already marked
used. -/
theorem verify_token_single_use (t : String) (calls : List (String × Int × Int))
    (db : BotDB) :
    validCount t calls db ≤ 1 ∧
    (∀ uid tm, (verify_token t uid tm db).1.1 = true →
       validCount t calls (verify_token t uid tm db).2 = 0) ∧
    (∀ uid tm, (∀ r ∈ db.tokens, r.token ≠ t) →
       (verify_token t uid tm db).1.1 = false) ∧
    (∀ uid tm, (∀ r ∈ db.tokens, r.token = t → r.userId ≠ uid) →
       (verify_token t uid tm db).1.1 = false) ∧
    (∀ uid tm, tokenUsedUp t db → (verify_token t uid tm db).1.1 = false) := by
  refine ⟨validCount_le_one t calls db, ?_, ?_, ?_, ?_⟩
  · intro uid tm hv
    exact validCount_zero_of_usedUp t calls _ (usedUp_after_valid t uid tm db hv)
  · intro uid tm h
    apply verify_invalid_of_none
    unfold tokenLookup
    rw [List.find?_eq_none]
    intro r hr
    simp only [decide_eq_true_eq, not_and]
    intro ht
    exact absurd ht (h r hr)
  · intro uid tm h
    apply verify_invalid_of_none
    unfold tokenLookup
    rw [List.find?_eq_none]
    intro r hr
    simp only [decide_eq_true_eq, not_and]
    intro ht hu
    exact absurd hu (h r hr ht)
  · intro uid tm h
    exact verify_invalid_of_usedUp t uid tm db h

/-- Concrete store with one unused token for the C2 witness. -/
def dbTokenW : BotDB :=
  { sessions := [], bypassLogs := [], bypassThreshold := 35, links := [],
    forceJoin := [], analytics := [],
    tokens := [{ token := "a", userId := 1, createdAt := 0, isUsed := false,
                 isBypassed := false, callbackTime := none }] }

/-- Concrete store whose only token row is already used. -/
def dbTokenUsedW : BotDB :=
  { dbTokenW with
    tokens := [{ token := "a", userId := 1, createdAt := 0, isUsed := true,
                 isBypassed := true, callbackTime := some 10 }] }

/-- Witness for C2 at concrete inputs: two redemption calls on the same
token count at most one valid, and a used token is redeemed invalid. -/
theorem verify_token_single_use_witness :
    validCount "a" [("a", 1, 100), ("a", 1, 200)] dbTokenW ≤ 1 ∧
    (tokenUsedUp "a" dbTokenUsedW ∧
      (verify_token "a" 1 100 dbTokenUsedW).1.1 = false) := by
  refine ⟨(verify_token_single_use "a" [("a", 1, 100), ("a", 1, 200)] dbTokenW).1, ?_, ?_⟩
  · intro r hr
    simp [dbTokenUsedW, dbTokenW] at hr
    simp [hr]
  · exact (verify_token_single_use "a" [] dbTokenUsedW).2.2.2.2 1 100
      (by intro r hr; simp [dbTokenUsedW, dbTokenW] at hr; simp [hr])

/-- C3.  Bypass threshold: an otherwise-valid redemption succeeds, is
classified bypassed exactly when the elapsed time since creation is
below the configured threshold, and appends a bypass log row exactly in
that case. -/
theorem verify_token_bypass_threshold (t : String) (uid tm : Int) (db : BotDB)
    (row : TokenRow) (h : tokenLookup t uid db.tokens = some row) :
    (verify_token t uid tm db).1.1 = true ∧
    (verify_token t uid tm db).1.2.1 =
      decide (tm - row.createdAt < db.bypassThreshold) ∧
    (tm - row.createdAt < db.bypassThreshold →
       (verify_token t uid tm db).2.bypassLogs =
         db.bypassLogs ++ [{ userId := uid, token := t,
                             timeDiff := tm - row.createdAt }]) ∧
    (db.bypassThreshold ≤ tm - row.createdAt →
       (verify_token t uid tm db).2.bypassLogs = db.bypassLogs) := by
  unfold verify_token
  rw [h]
  refine ⟨rfl, rfl, ?_, ?_⟩
  · intro hlt
    simp [hlt]
  · intro hge
    simp [not_lt.mpr hge]

/-- Witness for C3: a token created at 0 and redeemed at 10 with
threshold 35 comes back valid and bypassed with a log row; redeemed at
100 it comes back valid and not bypassed with no log row. -/
theorem verify_token_bypass_threshold_witness :
    tokenLookup "a" 1 dbTokenW.tokens =
      some { token := "a", userId := 1, createdAt := 0, isUsed := false,
             isBypassed := false, callbackTime := none } ∧
    (verify_token "a" 1 10 dbTokenW).1.1 = true ∧
    (verify_token "a" 1 10 dbTokenW).1.2.1 = true ∧
    (verify_token "a" 1 10 dbTokenW).2.bypassLogs =
      [{ userId := 1, token := "a", timeDiff := 10 }] ∧
    (verify_token "a" 1 100 dbTokenW).1.2.1 = false ∧
    (verify_token "a" 1 100 dbTokenW).2.bypassLogs = [] := by
  have hrow : tokenLookup "a" 1 dbTokenW.tokens =
      some { token := "a", userId := 1, createdAt := 0, isUsed := false,
             isBypassed := false, callbackTime := none } := by decide
  have h10 := verify_token_bypass_threshold "a" 1 10 dbTokenW _ hrow
  have h100 := verify_token_bypass_threshold "a" 1 100 dbTokenW _ hrow
  refine ⟨hrow, h10.1, ?_, ?_, ?_, ?_⟩
  · rw [h10.2.1]; decide
  · rw [h10.2.2.1 (by decide)]; rfl
  · rw [h100.2.1]; decide
  · rw [h100.2.2.2 (by decide)]; rfl

/-- Environment for the C4 evaluation: clock at 100 (65 seconds after
token creation, past the 35 second threshold), a fresh token and session
id ready, a working shortener, every channel joined. -/
def envC4 : Env :=
  { now := 100, freshToken := "t2", freshSessionId := 5,
    shortUrl := some "s", member := fun _ => true }

/-- State for the C4 evaluation: a pending single-link request "L" with
outstanding token "t1" created at 0 for user 7, no session yet. -/
def stC4 : BotState :=
  { reqs := [],
    userData := { pendingLink := some "L", isBatch := false,
                  verificationToken := some "t1" },
    db := { sessions := [],
            tokens := [{ token := "t1", userId := 7, createdAt := 0,
                         isUsed := false, isBypassed := false,
                         callbackTime := none }],
            bypassLogs := [], bypassThreshold := 35,
            links := [{ linkId := "L", channelId := 1, linkType := "single",
                        uses := 0 }],
            forceJoin := [], analytics := [] } }

/-- C4.  Evaluation at the failing input: with a pending request and an
otherwise-valid, non-bypassed redemption (elapsed 100 at threshold 35),
the redemption callback raises ValueError while unpacking the 3-tuple of
verify_token into two names, so no session row is created and no content
is delivered, yet the token has already been consumed; the webhook
handler fails the same way. -/
theorem verification_callback_crashes :
    (verification_callback 7 envC4 stC4).1 = [Ev.pyError valueErrorMsg] ∧
    (verification_callback 7 envC4 stC4).2.db.sessions = [] ∧
    (verification_callback 7 envC4 stC4).2.db.tokens.all (fun r => r.isUsed) = true ∧
    (handle_verification_webhook 7 "t1" envC4 stC4).1 =
      [Ev.pyError valueErrorMsg] ∧
    (handle_verification_webhook 7 "t1" envC4 stC4).2.db.sessions = [] := by
  decide

lemma handle_single_link_events_of_session (uid : Int) (linkId : String)
    (env : Env) (s : BotState) (sess : SessionRow)
    (h : get_active_session uid env.now s.db.sessions = some sess) :
    (handle_single_link uid linkId env s).1 =
      if (check_rate_limit env.now "link_access" s.reqs).1.1 = false then
        [Ev.msg (check_rate_limit env.now "link_access" s.reqs).1.2]
      else
        match s.db.links.find? (fun l => decide (l.linkId = linkId)) with
        | none => [Ev.logged "link_access", Ev.msg invalidLinkMsg]
        | some _ => [Ev.logged "link_access", Ev.singleSent linkId] := by
  unfold handle_single_link
  dsimp only
  cases hb : (check_rate_limit env.now "link_access" s.reqs).1.1 with
  | false => simp
  | true =>
      simp only [Bool.true_eq_false, if_false]
      rw [h]
      cases hf : s.db.links.find? (fun l => decide (l.linkId = linkId)) <;> simp

lemma handle_batch_link_events_of_session (uid : Int) (batchId : String)
    (env : Env) (s : BotState) (sess : SessionRow)
    (h : get_active_session uid env.now s.db.sessions = some sess) :
    (handle_batch_link uid batchId env s).1 =
      match s.db.links.find? (fun l => decide (l.linkId = batchId)) with
      | none => [Ev.logged "batch_access", Ev.msg invalidBatchMsg]
      | some _ => [Ev.logged "batch_access", Ev.batchSent batchId] := by
  unfold handle_batch_link
  dsimp only
  rw [h]
  cases hf : s.db.links.find? (fun l => decide (l.linkId = batchId)) <;> simp

/-- C5.  Fast path: with a non-expired active session, neither the
single-link nor the batch-link handler ever invokes the membership gate
or issues a verification token; and when the request passes the
link_access rate check (which batch requests do not even have) and the
link row exists, the content is delivered. -/
theorem fast_path_no_gate_no_token (uid : Int) (linkId : String) (env : Env)
    (s : BotState) (sess : SessionRow)
    (h : get_active_session uid env.now s.db.sessions = some sess) :
    (noGateNoToken (handle_single_link uid linkId env s).1 ∧
      ((check_rate_limit env.now "link_access" s.reqs).1.1 = true →
        ∀ l, s.db.links.find? (fun l2 => decide (l2.linkId = linkId)) = some l →
          Ev.singleSent linkId ∈ (handle_single_link uid linkId env s).1)) ∧
    (noGateNoToken (handle_batch_link uid linkId env s).1 ∧
      (∀ l, s.db.links.find? (fun l2 => decide (l2.linkId = linkId)) = some l →
        Ev.batchSent linkId ∈ (handle_batch_link uid linkId env s).1)) := by
  have hs := handle_single_link_events_of_session uid linkId env s sess h
  have hbt := handle_batch_link_events_of_session uid linkId env s sess h
  refine ⟨⟨?_, ?_⟩, ?_, ?_⟩
  · rw [noGateNoToken, hs]
    cases hb : (check_rate_limit env.now "link_access" s.reqs).1.1
    · simp
    · cases hf : s.db.links.find? (fun l => decide (l.linkId = linkId)) <;> simp [hb]
  · intro hallow l hl
    rw [hs, if_neg (by simp [hallow]), hl]
    simp
  · rw [noGateNoToken, hbt]
    cases hf : s.db.links.find? (fun l => decide (l.linkId = linkId)) <;> simp
  · intro l hl
    rw [hbt, hl]
    simp

/-- Environment for the fast-path witness. -/
def envW : Env :=
  { now := 50, freshToken := "t9", freshSessionId := 9,
    shortUrl := some "s", member := fun _ => true }

/-- State for the fast-path witness: user 7 holds an active session
until 1000 and link "L" exists. -/
def stW : BotState :=
  { reqs := [],
    userData := { pendingLink := none, isBatch := false,
                  verificationToken := none },
    db := { sessions := [{ sessionId := 1, userId := 7, startTime := 0,
                           expiryTime := 1000, isActive := true }],
            tokens := [], bypassLogs := [], bypassThreshold := 35,
            links := [{ linkId := "L", channelId := 1, linkType := "single",
                        uses := 0 }],
            forceJoin := [], analytics := [] } }

/-- Witness for C5 at concrete inputs. -/
theorem fast_path_no_gate_no_token_witness :
    get_active_session 7 envW.now stW.db.sessions =
      some { sessionId := 1, userId := 7, startTime := 0,
             expiryTime := 1000, isActive := true } ∧
    noGateNoToken (handle_single_link 7 "L" envW stW).1 ∧
    Ev.singleSent "L" ∈ (handle_single_link 7 "L" envW stW).1 ∧
    Ev.batchSent "L" ∈ (handle_batch_link 7 "L" envW stW).1 := by
  have hsess : get_active_session 7 envW.now stW.db.sessions =
      some { sessionId := 1, userId := 7, startTime := 0,
             expiryTime := 1000, isActive := true } := by decide
  have hmain := fast_path_no_gate_no_token 7 "L" envW stW _ hsess
  refine ⟨hsess, hmain.1.1, ?_, ?_⟩
  · exact hmain.1.2 (by decide)
      { linkId := "L", channelId := 1, linkType := "single", uses := 0 }
      (by decide)
  · exact hmain.2.2
      { linkId := "L", channelId := 1, linkType := "single", uses := 0 }
      (by decide)

/-- Environment for the C6 counterexample. -/
def envC6 : Env :=
  { now := 100, freshToken := "t9", freshSessionId := 9,
    shortUrl := some "s", member := fun _ => true }

/-- State for the C6 counterexample: the rate window of the user already
holds 20 instants from one second ago, the user has an active session,
and batch link "B" exists. -/
def stC6 : BotState :=
  { reqs := List.replicate 20 99,
    userData := { pendingLink := none, isBatch := false,
                  verificationToken := none },
    db := { sessions := [{ sessionId := 1, userId := 7, startTime := 0,
                           expiryTime := 1000, isActive := true }],
            tokens := [], bypassLogs := [], bypassThreshold := 35,
            links := [{ linkId := "B", channelId := 1, linkType := "batch",
                        uses := 0 }],
            forceJoin := [], analytics := [] } }

/-- C6 counterexample: the link_access rate check would deny this user,
yet the batch-link handler, which performs no rate check at all, runs
the later pipeline steps and delivers the content. -/
theorem batch_skips_rate_check :
    (check_rate_limit envC6.now "link_access" stC6.reqs).1.1 = false ∧
    (handle_batch_link 7 "B" envC6 stC6).1 =
      [Ev.logged "batch_access", Ev.batchSent "B"] := by
  decide

/-- C6 as amended.  Single-link requests are rate-checked first with
class link_access: on denial only the denial message is emitted and the
store and pending state are untouched.  Batch-link requests have no such
check: even a user whose window would fail it proceeds to the session
lookup, and with an active session the batch is delivered. -/
theorem rate_check_first_amended (uid : Int) (linkId : String) (env : Env)
    (s : BotState)
    (hdeny : (check_rate_limit env.now "link_access" s.reqs).1.1 = false) :
    ((handle_single_link uid linkId env s).1 =
       [Ev.msg (check_rate_limit env.now "link_access" s.reqs).1.2] ∧
     (handle_single_link uid linkId env s).2.db = s.db ∧
     (handle_single_link uid linkId env s).2.userData = s.userData) ∧
    (∀ sess, get_active_session uid env.now s.db.sessions = some sess →
      ∀ l, s.db.links.find? (fun l2 => decide (l2.linkId = linkId)) = some l →
        Ev.batchSent linkId ∈ (handle_batch_link uid linkId env s).1) := by
  constructor
  · unfold handle_single_link
    dsimp only
    simp [hdeny]
  · intro sess hsess l hl
    rw [handle_batch_link_events_of_session uid linkId env s sess hsess, hl]
    simp

/-- Witness for the amended C6 at concrete inputs. -/
theorem rate_check_first_amended_witness :
    (check_rate_limit envC6.now "link_access" stC6.reqs).1.1 = false ∧
    (handle_single_link 7 "B" envC6 stC6).1 =
      [Ev.msg (check_rate_limit envC6.now "link_access" stC6.reqs).1.2] ∧
    Ev.batchSent "B" ∈ (handle_batch_link 7 "B" envC6 stC6).1 := by
  have hd : (check_rate_limit envC6.now "link_access" stC6.reqs).1.1 = false := by
    decide
  have hm := rate_check_first_amended 7 "B" envC6 stC6 hd
  exact ⟨hd, hm.1.1,
    hm.2 { sessionId := 1, userId := 7, startTime := 0, expiryTime := 1000,
           isActive := true } (by decide)
      { linkId := "B", channelId := 1, linkType := "batch", uses := 0 }
      (by decide)⟩

/-- C7.  Evaluation at the failing input: an instant recorded exactly one
day before now has timedelta seconds component (now - r).seconds = 0, so
the cleanup keeps it even though it is far older than 60 seconds, and a
window of 20 such day-old instants still denies the call. -/
theorem rate_window_day_wrap :
    cleanRequests 86400 [0] = [0] ∧
    (86400 : Int) - 0 > 60 ∧
    (check_rate_limit 86400 "message" (List.replicate 20 0)).1.1 = false ∧
    (check_rate_limit 86400 "message" (List.replicate 20 0)).1.2 = rateLimitMsg := by
  decide

/-- C8 counterexample: three requests of class message recorded within
the last 30 seconds make the next verification-class call denied with
the verification message, although no verification request was ever
recorded: the window holds no action class at all. -/
theorem verification_limit_cross_class :
    (check_rate_limit 100 "message" []).1.1 = true ∧
    (check_rate_limit 101 "message" (check_rate_limit 100 "message" []).2).1.1 = true ∧
    (check_rate_limit 102 "message"
        (check_rate_limit 101 "message" (check_rate_limit 100 "message" []).2).2).1.1 = true ∧
    (check_rate_limit 103 "verification"
        (check_rate_limit 102 "message"
          (check_rate_limit 101 "message"
            (check_rate_limit 100 "message" []).2).2).2).1.1 = false ∧
    (check_rate_limit 103 "verification"
        (check_rate_limit 102 "message"
          (check_rate_limit 101 "message"
            (check_rate_limit 100 "message" []).2).2).2).1.2 = verificationLimitMsg := by
  decide

/-- C8 as amended.  The window is kept per user only; every permitted
call of any action class appends its instant to the same list, and the
3-per-30-seconds verification limit counts all retained instants within
30 seconds regardless of the class that recorded them. -/
theorem rate_window_shared_across_classes (now : Int) (reqs : List Int)
    (a : String) (hlen : (cleanRequests now reqs).length < 20) :
    ((check_rate_limit now "verification" reqs).1.1 = false ↔
       3 ≤ ((cleanRequests now reqs).filter
             (fun r => decide (tdSeconds now r < 30))).length) ∧
    ((check_rate_limit now a reqs).1.1 = true →
       (check_rate_limit now a reqs).2 = cleanRequests now reqs ++ [now]) := by
  have hnot : ¬ 20 ≤ (cleanRequests now reqs).length := by omega
  constructor
  · by_cases hc : 3 ≤ ((cleanRequests now reqs).filter
        (fun r => decide (tdSeconds now r < 30))).length
    · simp [check_rate_limit, hnot, hc]
    · simp [check_rate_limit, hnot, hc]
  · intro hallow
    unfold check_rate_limit at hallow ⊢
    dsimp only at hallow ⊢
    rw [if_neg hnot] at hallow ⊢
    by_cases hc : a = "verification" ∧ 3 ≤ ((cleanRequests now reqs).filter
        (fun r => decide (tdSeconds now r < 30))).length
    · rw [if_pos hc] at hallow
      exact absurd hallow (by simp)
    · rw [if_neg hc]

/-- Witness for the amended C8 at concrete inputs. -/
theorem rate_window_shared_across_classes_witness :
    (cleanRequests 103 [100, 101, 102]).length < 20 ∧
    (check_rate_limit 103 "verification" [100, 101, 102]).1.1 = false ∧
    (check_rate_limit 103 "message" [100, 101, 102]).2 =
      cleanRequests 103 [100, 101, 102] ++ [103] := by
  have hlen : (cleanRequests 103 [100, 101, 102]).length < 20 := by decide
  have hm := rate_window_shared_across_classes 103 [100, 101, 102] "message" hlen
  exact ⟨hlen, hm.1.mpr (by decide), hm.2 (by decide)⟩

/-- C9.  Fail-closed membership: check_membership is a total Boolean
function of the lookup outcome; every raised error yields not-joined,
and a joined verdict can only arise from a successful lookup returning
one of the allowed statuses. -/
theorem membership_fail_closed (x : Except String String) :
    (∀ e, x = Except.error e → check_membership x = false) ∧
    (check_membership x = true →
      ∃ st, x = Except.ok st ∧ st ∈ allowedStatuses) := by
  constructor
  · intro e he
    subst he
    rfl
  · intro hx
    cases x with
    | error e => exact absurd hx (by simp [check_membership])
    | ok st =>
        refine ⟨st, rfl, ?_⟩
        simpa [check_membership] using hx

/-- Witness for C9 at concrete inputs: a lookup error is reported
not-joined, and a member status is a successful lookup. -/
theorem membership_fail_closed_witness :
    check_membership (Except.error "network timeout") = false ∧
    ∃ st, (Except.ok "member" : Except String String) = Except.ok st ∧
      st ∈ allowedStatuses := by
  refine ⟨(membership_fail_closed (Except.error "network timeout")).1
    "network timeout" rfl, ?_⟩
  exact (membership_fail_closed (Except.ok "member")).2 (by decide)

/-- Flip only the required column of a channel row. -/
def setRequired (b : Bool) (c : ForceJoinChannel) : ForceJoinChannel :=
  { c with required := b }

lemma get_force_join_setRequired (b : Bool) (tbl : List ForceJoinChannel) :
    get_force_join_channels (tbl.map (setRequired b)) =
      (get_force_join_channels tbl).map (setRequired b) := by
  unfold get_force_join_channels
  induction tbl with
  | nil => rfl
  | cons c t ih =>
      by_cases hc : c.isActive <;>
        simp [setRequired, List.filter_cons, hc, ih]

lemma start_verification_events_forceJoin (uid : Int) (l : String) (ib : Bool)
    (env : Env) (s : BotState) (fj : List ForceJoinChannel) :
    (start_verification uid l ib env
        { s with db := { s.db with forceJoin := fj } }).1 =
      (start_verification uid l ib env s).1 := by
  unfold start_verification
  dsimp only
  cases hb : (check_rate_limit env.now "verification" s.reqs).1.1 <;>
    cases env.shortUrl <;> simp [hb]

lemma all_snd_map (env : Env) (l : List ForceJoinChannel) :
    ((l.map (fun c => (c, env.member c.channelId))).all (fun p => p.2)) =
      (l.map (fun c => env.member c.channelId)).all id := by
  induction l with
  | nil => rfl
  | cons x xs ih =>
      simp only [List.map_cons, List.all_cons, ih]
      rfl

lemma map_member_setRequired (b : Bool) (env : Env)
    (l : List ForceJoinChannel) :
    (l.map (setRequired b)).map (fun c => env.member c.channelId) =
      l.map (fun c => env.member c.channelId) := by
  induction l with
  | nil => rfl
  | cons x xs ih =>
      simp only [List.map_cons, ih]
      rfl

lemma isEmpty_map_setRequired (b : Bool) (l : List ForceJoinChannel) :
    (l.map (setRequired b)).isEmpty = l.isEmpty := by
  cases l <;> rfl

lemma check_force_join_events_eq (uid : Int) (linkId : String) (isBatch : Bool)
    (env : Env) (s : BotState) :
    (check_force_join uid linkId isBatch env s).1 =
      if (get_force_join_channels s.db.forceJoin).isEmpty then
        (start_verification uid linkId isBatch env s).1
      else if ((get_force_join_channels s.db.forceJoin).map
          (fun c => env.member c.channelId)).all id then
        Ev.gateChecked :: (start_verification uid linkId isBatch env s).1
      else [Ev.gateChecked, Ev.joinPromptShown] := by
  unfold check_force_join
  dsimp only
  rw [all_snd_map]
  cases he : (get_force_join_channels s.db.forceJoin).isEmpty
  · cases hb : ((get_force_join_channels s.db.forceJoin).map
        (fun c => env.member c.channelId)).all id <;> simp
  · simp

lemma check_force_join_events_setRequired (uid : Int) (linkId : String)
    (isBatch : Bool) (env : Env) (s : BotState) (b : Bool) :
    (check_force_join uid linkId isBatch env
        { s with db := { s.db with
            forceJoin := s.db.forceJoin.map (setRequired b) } }).1 =
      (check_force_join uid linkId isBatch env s).1 := by
  rw [check_force_join_events_eq, check_force_join_events_eq]
  dsimp only
  rw [get_force_join_setRequired, isEmpty_map_setRequired,
    map_member_setRequired, start_verification_events_forceJoin]

/-- C10.  The membership gate evaluates exactly the channels with
is_active set: a non-joined channel with is_active = 1 and required = 0
still blocks access (the gate shows the join prompt instead of
proceeding to verification), and flipping the stored required flag never
changes what the gate does. -/
theorem required_flag_ignored (uid : Int) (linkId : String) (isBatch : Bool)
    (env : Env) (s : BotState) (c : ForceJoinChannel)
    (hc : c ∈ s.db.forceJoin) (hact : c.isActive = true)
    (_hreq : c.required = false) (hmem : env.member c.channelId = false) :
    (check_force_join uid linkId isBatch env s).1 =
      [Ev.gateChecked, Ev.joinPromptShown] ∧
    (∀ b, (check_force_join uid linkId isBatch env
        { s with db := { s.db with
            forceJoin := s.db.forceJoin.map (setRequired b) } }).1 =
      (check_force_join uid linkId isBatch env s).1) := by
  refine ⟨?_, fun b => check_force_join_events_setRequired uid linkId isBatch env s b⟩
  have hcin : c ∈ get_force_join_channels s.db.forceJoin :=
    List.mem_filter.mpr ⟨hc, by simp [hact]⟩
  have hne : (get_force_join_channels s.db.forceJoin).isEmpty = false := by
    cases hl : get_force_join_channels s.db.forceJoin with
    | nil => rw [hl] at hcin; exact absurd hcin (List.not_mem_nil c)
    | cons a t => rfl
  have hnotall : ((get_force_join_channels s.db.forceJoin).map
      (fun ch => env.member ch.channelId)).all id = false := by
    rw [List.all_eq_false]
    exact ⟨env.member c.channelId, List.mem_map_of_mem _ hcin,
      by simp [hmem]⟩
  rw [check_force_join_events_eq, hne, hnotall]
  simp

/-- State for the C10 witness: one active, not-required force-join
channel that the user has not joined. -/
def stC10 : BotState :=
  { reqs := [],
    userData := { pendingLink := none, isBatch := false,
                  verificationToken := none },
    db := { sessions := [], tokens := [], bypassLogs := [],
            bypassThreshold := 35, links := [],
            forceJoin := [{ channelId := 5, title := "ch", inviteLink := "inv",
                            isActive := true, required := false }],
            analytics := [] } }

/-- Environment for the C10 witness: the user is a member of nothing. -/
def envC10 : Env :=
  { now := 0, freshToken := "t", freshSessionId := 1,
    shortUrl := some "s", member := fun _ => false }

/-- Witness for C10 at concrete inputs. -/
theorem required_flag_ignored_witness :
    (check_force_join 7 "L" false envC10 stC10).1 =
      [Ev.gateChecked, Ev.joinPromptShown] ∧
    (check_force_join 7 "L" false envC10
        { stC10 with db := { stC10.db with
            forceJoin := stC10.db.forceJoin.map (setRequired true) } }).1 =
      (check_force_join 7 "L" false envC10 stC10).1 := by
  have hm := required_flag_ignored 7 "L" false envC10 stC10
    { channelId := 5, title := "ch", inviteLink := "inv",
      isActive := true, required := false }
    (by decide) (by decide) (by decide) (by decide)
  exact ⟨hm.1, hm.2 true⟩

end FileStore
